import Mathlib

/-!
Shallow embedding of `src/rprblender/export/material.py` — the material
cache-key derivation, sync and sync_update layer of the RadeonProRender
Blender addon — together with theorems settling the specification claims.

Python values that flow into the renderer context's `materials` dictionary
are strings and (nested) tuples of such values; we embed them as `PyVal`.
Duck-typed host data (materials, node trees, nodes, sockets, links,
consuming objects) is embedded as structures carrying exactly the fields
the source reads.  Python exceptions (`AttributeError` from dereferencing a
`None` node tree, `KeyError` from a failed socket-collection lookup) are
embedded with `Except PyErr`.
-/

/-- Python exceptions this code can raise. -/
inductive PyErr where
  | attributeError : PyErr
  | keyError : PyErr
deriving DecidableEq, Repr

/-- A Python value usable as a dictionary key here: a string, or a tuple of
such values (material names, UV-set-name tuples, and the composite cache
keys built from them). -/
inductive PyVal where
  | str : String → PyVal
  | tup : List PyVal → PyVal

mutual

/-- Structural (Python `==`) equality test on embedded values. -/
def PyVal.beq : PyVal → PyVal → Bool
  | .str a, .str b => a == b
  | .tup xs, .tup ys => PyVal.beqList xs ys
  | _, _ => false

def PyVal.beqList : List PyVal → List PyVal → Bool
  | [], [] => true
  | x :: xs, y :: ys => PyVal.beq x y && PyVal.beqList xs ys
  | _, _ => false

end

mutual

theorem PyVal.beq_iff : ∀ a b : PyVal, PyVal.beq a b = true ↔ a = b
  | .str a, .str b => by simp [PyVal.beq]
  | .str _, .tup _ => by simp [PyVal.beq]
  | .tup _, .str _ => by simp [PyVal.beq]
  | .tup xs, .tup ys => by
      have h := PyVal.beqList_iff xs ys
      simp [PyVal.beq, h]

theorem PyVal.beqList_iff : ∀ xs ys : List PyVal, PyVal.beqList xs ys = true ↔ xs = ys
  | [], [] => by simp [PyVal.beqList]
  | [], _ :: _ => by simp [PyVal.beqList]
  | _ :: _, [] => by simp [PyVal.beqList]
  | x :: xs, y :: ys => by
      have h1 := PyVal.beq_iff x y
      have h2 := PyVal.beqList_iff xs ys
      simp [PyVal.beqList, h1, h2]

end

instance : DecidableEq PyVal := fun a b =>
  decidable_of_iff (PyVal.beq a b = true) (PyVal.beq_iff a b)

/-- A link into a node's input socket.  `from_node` is the producing node,
referenced (as Python object references into `node_tree.nodes` are) by its
index in the tree's node list.  `is_valid` is the host's link-validity flag. -/
structure Link where
  is_valid : Bool
  from_node : Nat
deriving DecidableEq, Repr

/-- An input socket of a node: its (possibly empty) list of incoming links.
In the host API `is_linked` is a derived property: it holds exactly when
`links` is non-empty. -/
structure Socket where
  links : List Link
deriving DecidableEq, Repr

/-- `socket.is_linked` of the host API: the socket has at least one link. -/
def Socket.is_linked (s : Socket) : Bool :=
  !s.links.isEmpty

/-- A shader node: its type tag `bl_idname`, its active-output flag, and its
named input sockets (an ordered collection looked up by name, as in the host
API). -/
structure Node where
  bl_idname : String
  is_active_output : Bool
  inputs : List (String × Socket)
deriving DecidableEq, Repr

/-- A material's node tree: its node collection. -/
structure NodeTree where
  nodes : List Node
deriving DecidableEq, Repr

/-- A material definition: its name and its optional node tree
(`node_tree` may be `None` in the host). -/
structure Material where
  name : String
  node_tree : Option NodeTree
deriving DecidableEq, Repr

/-- The consuming object, at the interface boundary the source reads:
whether the `isinstance(obj, bpy.types.Mesh)` discriminator holds, and the
ordered UV-set names the source reads as `obj.data.rpr.uv_sets_names`. -/
structure Obj where
  is_mesh : Bool
  uv_sets_names : List String
deriving DecidableEq, Repr

/-- Lookup in a named-socket collection: Python's `node.inputs[name]`
returns the first socket with that name and raises `KeyError` when absent;
this returns `none` in the absent case (the caller raises). -/
def inputsFind (inputs : List (String × Socket)) (name : String) : Option Socket :=
  (inputs.find? (fun p => p.1 = name)).map (·.2)

/-- Association-list lookup in the renderer context's `materials` dict. -/
def matsGet : List (PyVal × Nat) → PyVal → Option Nat
  | [], _ => none
  | p :: mats, k => if p.1 = k then some p.2 else matsGet mats k

/-- Remove every binding of key `k` (dicts hold at most one). -/
def matsRemove : List (PyVal × Nat) → PyVal → List (PyVal × Nat)
  | [], _ => []
  | p :: mats, k => if p.1 = k then matsRemove mats k else p :: matsRemove mats k

/-- Dict update: bind `k` to `v`, dropping any previous binding. -/
def matsSet (mats : List (PyVal × Nat)) (k : PyVal) (v : Nat) : List (PyVal × Nat) :=
  (k, v) :: matsRemove mats k

/-- The renderer context state the embedded code touches: the `materials`
registry (CacheKey → handle), plus model instrumentation: `next_handle`
is the allocator of fresh renderer-native handles (each successful
compilation yields a new, never-before-seen handle), and `compile_count`
counts invocations of the graph compiler's `final_export`. -/
structure RPRContext where
  materials : List (PyVal × Nat)
  next_handle : Nat
  compile_count : Nat
deriving DecidableEq

/-- `key(material, *, input_socket_key='Surface')`, material.py lines 10-14:
the `'Surface'` socket degenerates to the material identity itself; any
other socket name yields the two-element tuple `(material, socket)`. -/
def key (material : PyVal) (input_socket_key : String := "Surface") : PyVal :=
  if input_socket_key = "Surface" then
    material
  else
    .tup [material, .str input_socket_key]

/-- `get_material_output_node`, lines 17-25: `None` when `node_tree` is
`None`, else the first node whose `bl_idname` is
`'ShaderNodeOutputMaterial'` and whose `is_active_output` flag is set. -/
def get_material_output_node (material : Material) : Option Node :=
  match material.node_tree with
  | none => none
  | some tree =>
      tree.nodes.find? (fun node =>
        node.bl_idname = "ShaderNodeOutputMaterial" && node.is_active_output)

/-- `get_material_nodes_by_type`, lines 28-30: filters
`material.node_tree.nodes` by `bl_idname`.  It dereferences `node_tree`
without a `None` check, so a material with no node tree raises
`AttributeError`. -/
def get_material_nodes_by_type (material : Material) (bl_idname : String) :
    Except PyErr (List Node) :=
  match material.node_tree with
  | none => .error .attributeError
  | some tree => .ok (tree.nodes.filter (fun node => node.bl_idname = bl_idname))

/-- `has_uv_map_node`, lines 33-36: whether any node of the material has
type `'ShaderNodeUVMap'` (raises like `get_material_nodes_by_type`). -/
def has_uv_map_node (material : Material) : Except PyErr Bool :=
  match get_material_nodes_by_type material "ShaderNodeUVMap" with
  | .error e => .error e
  | .ok nodes => .ok (!nodes.isEmpty)

/-- `get_material_input_node`, lines 39-49: `None` without an output node;
`KeyError` when the output node has no input socket of the given name;
`None` when the socket is unlinked or its first link is invalid; otherwise
the link's producing node. -/
def get_material_input_node (material : Material) (input_socket_key : String) :
    Except PyErr (Option Nat) :=
  match get_material_output_node material with
  | none => .ok none
  | some output_node =>
      match inputsFind output_node.inputs input_socket_key with
      | none => .error .keyError
      | some socket_in =>
          match socket_in.links with
          | [] => .ok none
          | link0 :: _ =>
              if !link0.is_valid then .ok none
              else .ok (some link0.from_node)

/-- Modelled from the spec: the Socket Resolver (§4.1) as the Graph
Compiler invokes it on the output node; the compiler lives in
`rprblender/nodes/blender_nodes.py`, which is not under `src/`.  Per the
spec it fails softly (returns `none`) when the material has no node tree,
no active output node, the named socket does not exist, the socket is
unlinked, or its single link is marked invalid; otherwise it yields the
producing node. -/
def resolve_input (material : Material) (socket_name : String) : Option Nat :=
  match get_material_output_node material with
  | none => none
  | some output_node =>
      match inputsFind output_node.inputs socket_name with
      | none => none
      | some socket_in =>
          match socket_in.links with
          | [] => none
          | link0 :: _ =>
              if !link0.is_valid then none else some link0.from_node

/-- Modelled from the spec: `ShaderNodeOutputMaterial.final_export` (§4.3),
the Graph Compiler entry point, which lives in
`rprblender/nodes/blender_nodes.py`, not under `src/`.  Per the spec it
returns `none` when there is no active output node (`NoOutputNode`) or the
requested root socket does not resolve (`UnconnectedOutput`); otherwise it
compiles the graph and assembles a renderer-native handle — modelled as
the freshly allocated handle id `fresh`. -/
def final_export (material : Material) (input_socket_key : String)
    (fresh : Nat) : Option Nat :=
  match get_material_output_node material with
  | none => none
  | some _ =>
      match resolve_input material input_socket_key with
      | none => none
      | some _ => some fresh

/-- Modelled from the spec: `RPRContext.set_material_node_as_material`
(§6), the registry `set` operation — binds the cache key to the compiled
handle (insertion overwrites). -/
def set_material_node_as_material (ctx : RPRContext) (k : PyVal)
    (mat_node : Nat) : RPRContext :=
  { ctx with materials := matsSet ctx.materials k mat_node }

/-- Modelled from the spec: `RPRContext.remove_material` (§6), the registry
`remove` operation — drops the binding of the cache key. -/
def remove_material (ctx : RPRContext) (k : PyVal) : RPRContext :=
  { ctx with materials := matsRemove ctx.materials k }

/-- The material-identity derivation inlined at `sync` lines 61-65 and
duplicated at `sync_update` lines 90-94: when the consuming object passes
the mesh check and the material has a UV-Map node, the composite
`(material.name, obj.data.rpr.uv_sets_names)`; otherwise the bare
`material.name`.  The UV-Map scan dereferences the node tree, so it raises
`AttributeError` for a mesh object when the node tree is absent. -/
def material_identity (material : Material) (obj : Option Obj) :
    Except PyErr PyVal :=
  match obj with
  | some o =>
      if o.is_mesh then
        match has_uv_map_node material with
        | .error e => .error e
        | .ok true =>
            .ok (.tup [.str material.name, .tup (o.uv_sets_names.map .str)])
        | .ok false => .ok (.str material.name)
      else .ok (.str material.name)
  | none => .ok (.str material.name)

/-- `sync`, lines 52-82: derive the cache key; return the cached handle on
a hit; on a miss return `None` when there is no output node, otherwise run
the Graph Compiler and, only on a non-null result, register it under the
key.  `compile_count` instruments each `final_export` invocation and
`next_handle` each successful compilation (fresh handle allocation). -/
def sync (rpr_context : RPRContext) (material : Material)
    (input_socket_key : String := "Surface") (obj : Option Obj := none) :
    Except PyErr (Option Nat × RPRContext) :=
  match material_identity material obj with
  | .error e => .error e
  | .ok ident =>
      let mat_key := key ident input_socket_key
      match matsGet rpr_context.materials mat_key with
      | some rpr_material => .ok (some rpr_material, rpr_context)
      | none =>
          match get_material_output_node material with
          | none => .ok (none, rpr_context)
          | some _ =>
              let ctx1 :=
                { rpr_context with
                    compile_count := rpr_context.compile_count + 1 }
              match final_export material input_socket_key ctx1.next_handle with
              | none => .ok (none, ctx1)
              | some rpr_material =>
                  let ctx2 := set_material_node_as_material ctx1 mat_key rpr_material
                  .ok (some rpr_material,
                       { ctx2 with next_handle := ctx2.next_handle + 1 })

/-- `sync_update`, lines 85-107: remove any cached entry under the Surface
key and re-sync; then remove any cached entry under the Displacement key
and re-sync the Displacement channel — the source (line 105) makes that
second `sync` call without passing `obj`.  Always returns `True`. -/
def sync_update (rpr_context : RPRContext) (material : Material)
    (obj : Option Obj := none) : Except PyErr (Bool × RPRContext) := do
  let ident ← material_identity material obj
  let mat_key := key ident
  let ctx1 :=
    if (matsGet rpr_context.materials mat_key).isSome then
      remove_material rpr_context mat_key
    else rpr_context
  let (_, ctx2) ← sync ctx1 material "Surface" obj
  let displacement_key := key mat_key "Displacement"
  let ctx3 :=
    if (matsGet ctx2.materials displacement_key).isSome then
      remove_material ctx2 displacement_key
    else ctx2
  let (_, ctx4) ← sync ctx3 material "Displacement" none
  return (true, ctx4)

/-! Concrete host-data fixtures used by counterexamples and witnesses. -/

/-- Output node of the `"Glass"` fixture: `Surface` validly linked to the
node at index 1, `Displacement` unlinked. -/
def glassOut : Node :=
  { bl_idname := "ShaderNodeOutputMaterial", is_active_output := true,
    inputs := [("Surface", { links := [{ is_valid := true, from_node := 1 }] }),
               ("Displacement", { links := [] })] }

/-- The BSDF node of the `"Glass"` fixture. -/
def glassBsdf : Node :=
  { bl_idname := "ShaderNodeBsdfGlass", is_active_output := false, inputs := [] }

/-- A material with an active output, a linked `Surface` socket and an
unlinked `Displacement` socket, and no UV-Map node. -/
def glassMat : Material :=
  { name := "Glass", node_tree := some { nodes := [glassOut, glassBsdf] } }

/-- Output node of the `"Wood"` fixture: `Surface` and `Displacement` both
validly linked. -/
def woodOut : Node :=
  { bl_idname := "ShaderNodeOutputMaterial", is_active_output := true,
    inputs := [("Surface", { links := [{ is_valid := true, from_node := 1 }] }),
               ("Displacement", { links := [{ is_valid := true, from_node := 2 }] })] }

/-- The diffuse BSDF node of the `"Wood"` fixture. -/
def woodBsdf : Node :=
  { bl_idname := "ShaderNodeBsdfDiffuse", is_active_output := false, inputs := [] }

/-- The displacement node of the `"Wood"` fixture. -/
def woodDisp : Node :=
  { bl_idname := "ShaderNodeDisplacement", is_active_output := false, inputs := [] }

/-- The UV-Map node of the `"Wood"` fixture. -/
def woodUV : Node :=
  { bl_idname := "ShaderNodeUVMap", is_active_output := false, inputs := [] }

/-- A material with an active output, both channels linked, and a UV-Map
node (so mesh consumers get composite identities). -/
def woodMat : Material :=
  { name := "Wood", node_tree := some { nodes := [woodOut, woodBsdf, woodDisp, woodUV] } }

/-- A material whose `node_tree` is `None`. -/
def noTreeMat : Material := { name := "Empty", node_tree := none }

/-- A material whose node tree contains no active output node. -/
def noOutMat : Material :=
  { name := "NoOut", node_tree := some { nodes := [glassBsdf] } }

/-- A mesh consumer with UV sets `("UVMap",)`. -/
def meshA : Obj := { is_mesh := true, uv_sets_names := ["UVMap"] }

/-- A mesh consumer with UV sets `("UVMap", "UVMap2")`. -/
def meshB : Obj := { is_mesh := true, uv_sets_names := ["UVMap", "UVMap2"] }

/-- The composite identity `("Wood", ("UVMap",))` of `woodMat` seen from
`meshA`. -/
def woodIdentA : PyVal :=
  .tup [.str "Wood", .tup [.str "UVMap"]]

/-- An empty renderer context. -/
def emptyCtx : RPRContext := { materials := [], next_handle := 0, compile_count := 0 }

/-- A renderer context already holding handles for `woodIdentA`'s Surface
and Displacement cache keys. -/
def woodCtx : RPRContext :=
  { materials := [(woodIdentA, 5), (.tup [woodIdentA, .str "Displacement"], 7)],
    next_handle := 10, compile_count := 0 }

/-- The shapes of material identity actually passed to `key` by `sync` and
`sync_update`: a bare name string, or a pair of the name and the tuple of
UV-set-name strings. -/
def IsMaterialIdentity (v : PyVal) : Prop :=
  (∃ name : String, v = PyVal.str name) ∨
  (∃ (name : String) (uv_names : List String),
    v = PyVal.tup [.str name, .tup (uv_names.map PyVal.str)])

/-! Registry (dictionary) lemmas. -/

theorem matsGet_set_self (mats : List (PyVal × Nat)) (k : PyVal) (v : Nat) :
    matsGet (matsSet mats k v) k = some v := by
  simp [matsSet, matsGet]

theorem matsGet_remove_self (mats : List (PyVal × Nat)) (k : PyVal) :
    matsGet (matsRemove mats k) k = none := by
  induction mats with
  | nil => rfl
  | cons p mats ih =>
      by_cases hp : p.1 = k <;> simp [matsRemove, matsGet, hp, ih]

theorem matsGet_remove_ne (mats : List (PyVal × Nat)) (k k' : PyVal)
    (h : k' ≠ k) : matsGet (matsRemove mats k) k' = matsGet mats k' := by
  induction mats with
  | nil => rfl
  | cons p mats ih =>
      by_cases hp : p.1 = k
      · have hk : k ≠ k' := fun e => h e.symm
        simp [matsRemove, matsGet, hp, hk, ih]
      · simp [matsRemove, matsGet, hp, ih]

theorem matsGet_set_ne (mats : List (PyVal × Nat)) (k k' : PyVal) (v : Nat)
    (h : k' ≠ k) : matsGet (matsSet mats k v) k' = matsGet mats k' := by
  have hk : k ≠ k' := fun e => h e.symm
  simp [matsSet, matsGet, hk, matsGet_remove_ne mats k k' h]

/-! Characterization lemmas for `sync`. -/

theorem final_export_some {m : Material} {sk : String} {fresh f : Nat}
    (h : final_export m sk fresh = some f) : f = fresh := by
  unfold final_export at h
  split at h
  · exact absurd h (by simp)
  · split at h
    · exact absurd h (by simp)
    · exact (Option.some.inj h).symm

theorem sync_eq_hit (ctx : RPRContext) (material : Material) (sk : String)
    (obj : Option Obj) (ident : PyVal) (h0 : Nat)
    (hid : material_identity material obj = Except.ok ident)
    (hget : matsGet ctx.materials (key ident sk) = some h0) :
    sync ctx material sk obj = .ok (some h0, ctx) := by
  simp [sync, hid, hget]

theorem sync_eq_miss_noout (ctx : RPRContext) (material : Material) (sk : String)
    (obj : Option Obj) (ident : PyVal)
    (hid : material_identity material obj = Except.ok ident)
    (hget : matsGet ctx.materials (key ident sk) = none)
    (hout : get_material_output_node material = none) :
    sync ctx material sk obj = .ok (none, ctx) := by
  simp [sync, hid, hget, hout]

theorem sync_eq_miss_fail (ctx : RPRContext) (material : Material) (sk : String)
    (obj : Option Obj) (ident : PyVal) (out : Node)
    (hid : material_identity material obj = Except.ok ident)
    (hget : matsGet ctx.materials (key ident sk) = none)
    (hout : get_material_output_node material = some out)
    (hfe : final_export material sk ctx.next_handle = none) :
    sync ctx material sk obj =
      .ok (none, { ctx with compile_count := ctx.compile_count + 1 }) := by
  simp [sync, hid, hget, hout, hfe]

theorem sync_eq_miss_succ (ctx : RPRContext) (material : Material) (sk : String)
    (obj : Option Obj) (ident : PyVal) (out : Node) (f : Nat)
    (hid : material_identity material obj = Except.ok ident)
    (hget : matsGet ctx.materials (key ident sk) = none)
    (hout : get_material_output_node material = some out)
    (hfe : final_export material sk ctx.next_handle = some f) :
    sync ctx material sk obj =
      .ok (some f,
        { materials := matsSet ctx.materials (key ident sk) f,
          next_handle := ctx.next_handle + 1,
          compile_count := ctx.compile_count + 1 }) := by
  simp [sync, hid, hget, hout, hfe, set_material_node_as_material]

theorem sync_eq_err (ctx : RPRContext) (material : Material) (sk : String)
    (obj : Option Obj) (e : PyErr)
    (hid : material_identity material obj = Except.error e) :
    sync ctx material sk obj = .error e := by
  simp [sync, hid]

theorem sync_inv (ctx : RPRContext) (material : Material) (sk : String)
    (obj : Option Obj) (r : Option Nat) (ctx' : RPRContext)
    (h : sync ctx material sk obj = .ok (r, ctx')) :
    ∃ ident, material_identity material obj = Except.ok ident ∧
      ((∃ h0, matsGet ctx.materials (key ident sk) = some h0 ∧
          r = some h0 ∧ ctx' = ctx) ∨
       (matsGet ctx.materials (key ident sk) = none ∧
         ((get_material_output_node material = none ∧ r = none ∧ ctx' = ctx) ∨
          (∃ out, get_material_output_node material = some out ∧
            ((final_export material sk ctx.next_handle = none ∧ r = none ∧
               ctx' = { ctx with compile_count := ctx.compile_count + 1 }) ∨
             (final_export material sk ctx.next_handle = some ctx.next_handle ∧
               r = some ctx.next_handle ∧
               ctx' = { materials := matsSet ctx.materials (key ident sk) ctx.next_handle,
                        next_handle := ctx.next_handle + 1,
                        compile_count := ctx.compile_count + 1 })))))) := by
  cases hid : material_identity material obj with
  | error e =>
      rw [sync_eq_err ctx material sk obj e hid] at h
      exact absurd h (by simp)
  | ok ident =>
      refine ⟨ident, rfl, ?_⟩
      cases hget : matsGet ctx.materials (key ident sk) with
      | some h0 =>
          rw [sync_eq_hit ctx material sk obj ident h0 hid hget] at h
          simp only [Except.ok.injEq, Prod.mk.injEq] at h
          exact Or.inl ⟨h0, rfl, h.1.symm, h.2.symm⟩
      | none =>
          refine Or.inr ⟨rfl, ?_⟩
          cases hout : get_material_output_node material with
          | none =>
              rw [sync_eq_miss_noout ctx material sk obj ident hid hget hout] at h
              simp only [Except.ok.injEq, Prod.mk.injEq] at h
              exact Or.inl ⟨rfl, h.1.symm, h.2.symm⟩
          | some out =>
              refine Or.inr ⟨out, rfl, ?_⟩
              cases hfe : final_export material sk ctx.next_handle with
              | none =>
                  rw [sync_eq_miss_fail ctx material sk obj ident out hid hget hout hfe] at h
                  simp only [Except.ok.injEq, Prod.mk.injEq] at h
                  exact Or.inl ⟨rfl, h.1.symm, h.2.symm⟩
              | some f =>
                  have hf : f = ctx.next_handle := final_export_some hfe
                  subst hf
                  rw [sync_eq_miss_succ ctx material sk obj ident out ctx.next_handle
                        hid hget hout hfe] at h
                  simp only [Except.ok.injEq, Prod.mk.injEq] at h
                  obtain ⟨h1, h2⟩ := h
                  exact Or.inr ⟨rfl, h1.symm, h2.symm⟩

/-! Further shared helper lemmas. -/

theorem key_left_inj (M1 M2 : PyVal) (sk : String) (h : M1 ≠ M2) :
    key M1 sk ≠ key M2 sk := by
  by_cases hs : sk = "Surface" <;> simp [key, hs, h]

theorem sync_some_registered (ctx : RPRContext) (material : Material)
    (sk : String) (obj : Option Obj) (ident : PyVal) (h0 : Nat) (ctx' : RPRContext)
    (hid : material_identity material obj = Except.ok ident)
    (h : sync ctx material sk obj = .ok (some h0, ctx')) :
    matsGet ctx'.materials (key ident sk) = some h0 := by
  obtain ⟨ident', hid', hcases⟩ := sync_inv ctx material sk obj (some h0) ctx' h
  rw [hid] at hid'
  injection hid' with e
  subst e
  rcases hcases with ⟨g, hget, hr, hctx⟩ | ⟨hget, hrest⟩
  · subst hctx
    injection hr with e'
    rw [hget, e']
  · rcases hrest with ⟨_, hr, _⟩ | ⟨out, hout, hrest'⟩
    · exact absurd hr (by simp)
    · rcases hrest' with ⟨_, hr, _⟩ | ⟨hfe, hr, hctx⟩
      · exact absurd hr (by simp)
      · subst hctx
        injection hr with e'
        rw [e']
        exact matsGet_set_self _ _ _

theorem sync_frame_other (ctx : RPRContext) (material : Material)
    (sk : String) (obj : Option Obj) (ident : PyVal) (r : Option Nat)
    (ctx' : RPRContext) (k' : PyVal)
    (hid : material_identity material obj = Except.ok ident)
    (h : sync ctx material sk obj = .ok (r, ctx'))
    (hk : k' ≠ key ident sk) :
    matsGet ctx'.materials k' = matsGet ctx.materials k' := by
  obtain ⟨ident', hid', hcases⟩ := sync_inv ctx material sk obj r ctx' h
  rw [hid] at hid'
  injection hid' with e
  subst e
  rcases hcases with ⟨g, _, _, hctx⟩ | ⟨_, hrest⟩
  · rw [hctx]
  · rcases hrest with ⟨_, _, hctx⟩ | ⟨out, _, hrest'⟩
    · rw [hctx]
    · rcases hrest' with ⟨_, _, hctx⟩ | ⟨_, _, hctx⟩
      · rw [hctx]
      · rw [hctx]
        exact matsGet_set_ne _ _ _ _ hk

/-- C3: for every material identity `M`, `key(M, "Surface")` is `M` itself
with no tuple wrapping; for every socket name `s ≠ "Surface"`, `key(M, s)`
is the two-element composite `(M, s)`; in particular
`key(M, "Displacement") = (M, "Displacement")`. -/
theorem key_degeneracy (M : PyVal) (s : String) (hs : s ≠ "Surface") :
    key M "Surface" = M ∧
    key M s = PyVal.tup [M, .str s] ∧
    key M "Displacement" = PyVal.tup [M, .str "Displacement"] :=
  ⟨rfl, by simp [key, hs], rfl⟩

/-- Witness for C3 at `M = "Glass"`, `s = "Displacement"`. -/
theorem key_degeneracy_witness :
    ("Displacement" ≠ "Surface" : Prop) ∧
    (key (.str "Glass") "Surface" = .str "Glass" ∧
     key (.str "Glass") "Displacement" =
       PyVal.tup [.str "Glass", .str "Displacement"] ∧
     key (.str "Glass") "Displacement" =
       PyVal.tup [.str "Glass", .str "Displacement"]) :=
  ⟨by decide, key_degeneracy (.str "Glass") "Displacement" (by decide)⟩

/-- C9: `key` is injective on the intended domain of material identities
(bare name, or (name, UV-set-name tuple)): equal cache keys force equal
identities and equal socket names; in particular a degenerate Surface key
never collides with a composite non-Surface key. -/
theorem key_injective (M1 M2 : PyVal) (s1 s2 : String)
    (h1 : IsMaterialIdentity M1) (h2 : IsMaterialIdentity M2)
    (heq : key M1 s1 = key M2 s2) : M1 = M2 ∧ s1 = s2 := by
  rcases h1 with ⟨n1, rfl⟩ | ⟨n1, uv1, rfl⟩ <;>
  rcases h2 with ⟨n2, rfl⟩ | ⟨n2, uv2, rfl⟩ <;>
  by_cases e1 : s1 = "Surface" <;>
  by_cases e2 : s2 = "Surface" <;>
  simp_all [key]

/-- Witness for C9 at two bare-name identities and the Surface socket. -/
theorem key_injective_witness :
    IsMaterialIdentity (.str "Glass") ∧
    ((PyVal.str "Glass" = PyVal.str "Glass") ∧ ("Surface" = "Surface" : Prop)) :=
  ⟨Or.inl ⟨"Glass", rfl⟩,
   key_injective (.str "Glass") (.str "Glass") "Surface" "Surface"
     (Or.inl ⟨"Glass", rfl⟩) (Or.inl ⟨"Glass", rfl⟩) rfl⟩

/-- C1: when the derived key is cached, `sync` returns the stored handle
with the context untouched (no compilation); on a miss it compiles, and it
registers a binding exactly when the result is non-null — a null result
leaves the registry unchanged, and a non-null result is registered under
the derived key. -/
theorem sync_cache_contract (ctx : RPRContext) (material : Material)
    (sk : String) (obj : Option Obj) (ident : PyVal)
    (hid : material_identity material obj = Except.ok ident) :
    (∀ h0, matsGet ctx.materials (key ident sk) = some h0 →
        sync ctx material sk obj = .ok (some h0, ctx)) ∧
    (matsGet ctx.materials (key ident sk) = none →
      ∃ r ctx', sync ctx material sk obj = .ok (r, ctx') ∧
        (r = none → ctx'.materials = ctx.materials) ∧
        (∀ h0, r = some h0 →
            ctx'.materials = matsSet ctx.materials (key ident sk) h0)) := by
  constructor
  · intro h0 hget
    exact sync_eq_hit ctx material sk obj ident h0 hid hget
  · intro hget
    cases hout : get_material_output_node material with
    | none =>
        exact ⟨none, ctx,
          sync_eq_miss_noout ctx material sk obj ident hid hget hout,
          fun _ => rfl, fun h0 hr => by cases hr⟩
    | some out =>
        cases hfe : final_export material sk ctx.next_handle with
        | none =>
            refine ⟨none, { ctx with compile_count := ctx.compile_count + 1 },
              sync_eq_miss_fail ctx material sk obj ident out hid hget hout hfe,
              fun _ => rfl, fun h0 hr => ?_⟩
            cases hr
        | some f =>
            refine ⟨some f,
              { materials := matsSet ctx.materials (key ident sk) f,
                next_handle := ctx.next_handle + 1,
                compile_count := ctx.compile_count + 1 },
              sync_eq_miss_succ ctx material sk obj ident out f hid hget hout hfe,
              fun hr => ?_, fun h0 hr => ?_⟩
            · cases hr
            · injection hr with e
              subst e
              rfl

/-- Witness for C1: the `"Glass"` material synced from an empty context. -/
theorem sync_cache_contract_witness :
    material_identity glassMat none = Except.ok (.str "Glass") ∧
    ((∀ h0, matsGet emptyCtx.materials (key (.str "Glass") "Surface") = some h0 →
        sync emptyCtx glassMat "Surface" none = .ok (some h0, emptyCtx)) ∧
     (matsGet emptyCtx.materials (key (.str "Glass") "Surface") = none →
      ∃ r ctx', sync emptyCtx glassMat "Surface" none = .ok (r, ctx') ∧
        (r = none → ctx'.materials = emptyCtx.materials) ∧
        (∀ h0, r = some h0 →
            ctx'.materials = matsSet emptyCtx.materials (key (.str "Glass") "Surface") h0))) :=
  ⟨rfl, sync_cache_contract emptyCtx glassMat "Surface" none (.str "Glass") rfl⟩

/-- C7: if the first `sync` of a triple — from a state where its derived
key is not yet cached — returns a non-null handle, then a second `sync`
with the identical triple returns the same handle and leaves the state
untouched (a pure registry lookup), and the graph compiler ran exactly
once across the two calls. -/
theorem sync_idempotent (ctx : RPRContext) (material : Material) (sk : String)
    (obj : Option Obj) (ident : PyVal) (h0 : Nat) (ctx1 : RPRContext)
    (hid : material_identity material obj = Except.ok ident)
    (hmiss : matsGet ctx.materials (key ident sk) = none)
    (h1 : sync ctx material sk obj = .ok (some h0, ctx1)) :
    sync ctx1 material sk obj = .ok (some h0, ctx1) ∧
    ctx1.compile_count = ctx.compile_count + 1 := by
  have hreg := sync_some_registered ctx material sk obj ident h0 ctx1 hid h1
  refine ⟨sync_eq_hit ctx1 material sk obj ident h0 hid hreg, ?_⟩
  obtain ⟨ident', hid', hcases⟩ := sync_inv ctx material sk obj (some h0) ctx1 h1
  rw [hid] at hid'
  injection hid' with e
  subst e
  rcases hcases with ⟨g, hget, _, _⟩ | ⟨_, hrest⟩
  · rw [hmiss] at hget
    cases hget
  · rcases hrest with ⟨_, hr, _⟩ | ⟨out, hout, ⟨_, hr, _⟩ | ⟨_, _, hctx⟩⟩
    · cases hr
    · cases hr
    · rw [hctx]

/-- Witness for C7: the two consecutive `"Glass"` Surface syncs. -/
theorem sync_idempotent_witness :
    (material_identity glassMat none = Except.ok (.str "Glass") ∧
     matsGet emptyCtx.materials (key (.str "Glass") "Surface") = none ∧
     sync emptyCtx glassMat "Surface" none =
       .ok (some 0, ⟨[(.str "Glass", 0)], 1, 1⟩)) ∧
    (sync ⟨[(.str "Glass", 0)], 1, 1⟩ glassMat "Surface" none =
       .ok (some 0, ⟨[(.str "Glass", 0)], 1, 1⟩) ∧
     (⟨[(.str "Glass", 0)], 1, 1⟩ : RPRContext).compile_count =
       emptyCtx.compile_count + 1) :=
  ⟨⟨rfl, rfl, rfl⟩,
   sync_idempotent emptyCtx glassMat "Surface" none (.str "Glass") 0
     ⟨[(.str "Glass", 0)], 1, 1⟩ rfl rfl rfl⟩

/-- C10: a `sync` call touches the registry only at its own derived key —
every other binding is unchanged — and at that key it keeps an existing
binding untouched and inserts only when the key was absent and the result
non-null; it never removes or overwrites an entry. -/
theorem sync_registry_frame (ctx : RPRContext) (material : Material)
    (sk : String) (obj : Option Obj) (r : Option Nat) (ctx' : RPRContext)
    (h : sync ctx material sk obj = .ok (r, ctx')) :
    ∃ ident, material_identity material obj = Except.ok ident ∧
      (∀ k', k' ≠ key ident sk →
          matsGet ctx'.materials k' = matsGet ctx.materials k') ∧
      (∀ h0, matsGet ctx.materials (key ident sk) = some h0 →
          ctx'.materials = ctx.materials) ∧
      (matsGet ctx.materials (key ident sk) = none →
        ctx'.materials = ctx.materials ∨
        ∃ h0, r = some h0 ∧
          ctx'.materials = matsSet ctx.materials (key ident sk) h0) := by
  obtain ⟨ident, hid, hcases⟩ := sync_inv ctx material sk obj r ctx' h
  refine ⟨ident, hid, ?_, ?_, ?_⟩
  · intro k' hk
    rcases hcases with ⟨g, hget, hr, hctx⟩ | ⟨hget, hrest⟩
    · rw [hctx]
    · rcases hrest with ⟨hout, hr, hctx⟩ | ⟨out, hout, ⟨hfe, hr, hctx⟩ | ⟨hfe, hr, hctx⟩⟩
      · rw [hctx]
      · rw [hctx]
      · rw [hctx]
        exact matsGet_set_ne _ _ _ _ hk
  · intro h0 hsome
    rcases hcases with ⟨g, hget, hr, hctx⟩ | ⟨hget, hrest⟩
    · rw [hctx]
    · rw [hget] at hsome
      cases hsome
  · intro hnone
    rcases hcases with ⟨g, hget, hr, hctx⟩ | ⟨hget, hrest⟩
    · rw [hget] at hnone
      cases hnone
    · rcases hrest with ⟨hout, hr, hctx⟩ | ⟨out, hout, ⟨hfe, hr, hctx⟩ | ⟨hfe, hr, hctx⟩⟩
      · rw [hctx]
        exact Or.inl rfl
      · rw [hctx]
        exact Or.inl rfl
      · rw [hctx]
        exact Or.inr ⟨ctx.next_handle, hr, rfl⟩

/-- Witness for C10: the first `"Glass"` Surface sync. -/
theorem sync_registry_frame_witness :
    (sync emptyCtx glassMat "Surface" none =
       .ok (some 0, ⟨[(.str "Glass", 0)], 1, 1⟩)) ∧
    (∃ ident, material_identity glassMat none = Except.ok ident ∧
      (∀ k', k' ≠ key ident "Surface" →
          matsGet (⟨[(.str "Glass", 0)], 1, 1⟩ : RPRContext).materials k' =
            matsGet emptyCtx.materials k') ∧
      (∀ h0, matsGet emptyCtx.materials (key ident "Surface") = some h0 →
          (⟨[(.str "Glass", 0)], 1, 1⟩ : RPRContext).materials = emptyCtx.materials) ∧
      (matsGet emptyCtx.materials (key ident "Surface") = none →
        (⟨[(.str "Glass", 0)], 1, 1⟩ : RPRContext).materials = emptyCtx.materials ∨
        ∃ h0, (some 0 : Option Nat) = some h0 ∧
          (⟨[(.str "Glass", 0)], 1, 1⟩ : RPRContext).materials =
            matsSet emptyCtx.materials (key ident "Surface") h0)) :=
  ⟨rfl, sync_registry_frame emptyCtx glassMat "Surface" none (some 0)
     ⟨[(.str "Glass", 0)], 1, 1⟩ rfl⟩

theorem except_bind_ok {α β : Type} {e : Except PyErr α} {f : α → Except PyErr β}
    {b : β} (h : e >>= f = .ok b) : ∃ a, e = .ok a ∧ f a = .ok b := by
  cases e with
  | error err => simp [Bind.bind, Except.bind] at h
  | ok a => exact ⟨a, rfl, by simpa [Bind.bind, Except.bind] using h⟩

/-- Counterexample to C5 as stated: looking up an input-socket name absent
from the output node raises `KeyError` instead of returning null (the
`"Glass"` output node has only `Surface` and `Displacement` inputs). -/
theorem get_material_input_node_missing_socket_raises :
    get_material_input_node glassMat "Foo" = .error .keyError := rfl

/-- C5 (amended): the socket resolver returns null — without raising —
when the material has no node DAG, no node is the active output, the named
socket is unlinked, or its single (first) link is marked invalid, the
invalid link being treated identically to an absent link; the remaining
case of the original claim is false: a socket name that does not exist on
the output node raises `KeyError` rather than returning null. -/
theorem get_material_input_node_soft_fail (material : Material) (sk : String)
    (h : material.node_tree = none ∨
         get_material_output_node material = none ∨
         ∃ out socket_in, get_material_output_node material = some out ∧
           inputsFind out.inputs sk = some socket_in ∧
           (socket_in.links = [] ∨
            ∃ l ls, socket_in.links = l :: ls ∧ l.is_valid = false)) :
    get_material_input_node material sk = .ok none := by
  rcases h with hnt | hout | ⟨out, socket_in, hout, hfind, hlinks⟩
  · have hout : get_material_output_node material = none := by
      simp [get_material_output_node, hnt]
    simp [get_material_input_node, hout]
  · simp [get_material_input_node, hout]
  · rcases hlinks with hnil | ⟨l, ls, hcons, hval⟩
    · simp [get_material_input_node, hout, hfind, hnil]
    · simp [get_material_input_node, hout, hfind, hcons, hval]

/-- Witness for C5 (amended): the unlinked `Displacement` socket of the
`"Glass"` material resolves to null. -/
theorem get_material_input_node_soft_fail_witness :
    (glassMat.node_tree = none ∨
     get_material_output_node glassMat = none ∨
     ∃ out socket_in, get_material_output_node glassMat = some out ∧
       inputsFind out.inputs "Displacement" = some socket_in ∧
       (socket_in.links = [] ∨
        ∃ l ls, socket_in.links = l :: ls ∧ l.is_valid = false)) ∧
    get_material_input_node glassMat "Displacement" = .ok none :=
  ⟨Or.inr (Or.inr ⟨glassOut, { links := [] }, rfl, rfl, Or.inl rfl⟩),
   get_material_input_node_soft_fail glassMat "Displacement"
     (Or.inr (Or.inr ⟨glassOut, { links := [] }, rfl, rfl, Or.inl rfl⟩))⟩

/-- Counterexample to C6 as stated: with the node tree absent and a mesh
consumer, `sync` raises `AttributeError` (the UV-map scan dereferences the
missing tree) instead of returning null; and with a stale registry entry
already present under the derived key, `sync` returns that handle, not
null. -/
theorem sync_no_output_counterexample :
    sync emptyCtx noTreeMat "Surface" (some meshA) = .error .attributeError ∧
    sync ⟨[(.str "Empty", 7)], 0, 0⟩ noTreeMat "Surface" none =
      .ok (some 7, ⟨[(.str "Empty", 7)], 0, 0⟩) :=
  ⟨rfl, rfl⟩

/-- C6 (amended): for a material with no node tree or with zero nodes
flagged as the active output, any `sync` call whose identity derivation
does not raise (i.e. excluding the mesh-consumer with absent node tree,
where the UV-map scan raises `AttributeError`) and whose derived key is
not already cached returns null and leaves the context — in particular
the registry — unchanged: no cache entry is created. -/
theorem sync_no_output_returns_none (ctx : RPRContext) (material : Material)
    (sk : String) (obj : Option Obj) (ident : PyVal)
    (hid : material_identity material obj = Except.ok ident)
    (hout : get_material_output_node material = none)
    (hmiss : matsGet ctx.materials (key ident sk) = none) :
    sync ctx material sk obj = .ok (none, ctx) :=
  sync_eq_miss_noout ctx material sk obj ident hid hmiss hout

/-- Witness for C6 (amended): a material whose tree has no active output. -/
theorem sync_no_output_returns_none_witness :
    (material_identity noOutMat none = Except.ok (.str "NoOut") ∧
     get_material_output_node noOutMat = none ∧
     matsGet emptyCtx.materials (key (.str "NoOut") "Surface") = none) ∧
    sync emptyCtx noOutMat "Surface" none = .ok (none, emptyCtx) :=
  ⟨⟨rfl, rfl, rfl⟩,
   sync_no_output_returns_none emptyCtx noOutMat "Surface" none
     (.str "NoOut") rfl rfl rfl⟩

/-- C8: whenever `sync_update` returns, it returns the boolean `True` —
for every material and consuming object, including when the Surface or
Displacement channel compile yields null — so the return value carries no
per-channel success information. -/
theorem sync_update_returns_true (ctx : RPRContext) (material : Material)
    (obj : Option Obj) (b : Bool) (ctx' : RPRContext)
    (h : sync_update ctx material obj = .ok (b, ctx')) : b = true := by
  unfold sync_update at h
  cases hid : material_identity material obj with
  | error e =>
      rw [hid] at h
      simp [Bind.bind, Except.bind] at h
  | ok ident =>
      rw [hid] at h
      simp only [Bind.bind, Except.bind] at h
      cases hs1 : sync
          (if (matsGet ctx.materials (key ident)).isSome then
            remove_material ctx (key ident)
          else ctx) material "Surface" obj with
      | error e =>
          rw [hs1] at h
          simp [Except.bind] at h
      | ok p =>
          rw [hs1] at h
          simp only [Except.bind] at h
          obtain ⟨r2, ctx2⟩ := p
          cases hs2 : sync
              (if (matsGet ctx2.materials (key (key ident) "Displacement")).isSome then
                remove_material ctx2 (key (key ident) "Displacement")
              else ctx2) material "Displacement" none with
          | error e =>
              rw [hs2] at h
              simp [Except.bind] at h
          | ok q =>
              rw [hs2] at h
              simp only [Except.bind] at h
              obtain ⟨r4, ctx4⟩ := q
              simp only [pure, Except.pure, Except.ok.injEq, Prod.mk.injEq] at h
              exact h.1.symm

/-- Witness for C8: `sync_update` on the `"Glass"` material (whose
Displacement compile yields null) returns `True`. -/
theorem sync_update_returns_true_witness :
    sync_update emptyCtx glassMat none =
      .ok (true, ⟨[(.str "Glass", 0)], 1, 2⟩) ∧ true = true :=
  ⟨rfl, sync_update_returns_true emptyCtx glassMat none true
     ⟨[(.str "Glass", 0)], 1, 2⟩ rfl⟩

theorem strList_map_inj (xs ys : List String)
    (h : xs.map PyVal.str = ys.map PyVal.str) : xs = ys := by
  induction xs generalizing ys with
  | nil =>
      cases ys with
      | nil => rfl
      | cons y ys => cases h
  | cons x xs ih =>
      cases ys with
      | nil => cases h
      | cons y ys =>
          simp only [List.map_cons, List.cons.injEq, PyVal.str.injEq] at h
          rw [h.1, ih ys h.2]

/-- C4: for a mesh consumer and a material containing a UV-Map node, the
derived identity is the composite (name, ordered UV-set-name tuple); two
mesh objects with different ordered UV tuples therefore use distinct cache
keys, and two successful syncs from them populate two distinct registry
entries, while identical tuples share one key; without a UV-Map node, or
with a non-mesh or absent consuming object, the identity is the bare
material name. -/
theorem sync_uv_sensitivity (material : Material) (sk : String) (o1 o2 : Obj)
    (hm1 : o1.is_mesh = true) (hm2 : o2.is_mesh = true)
    (huv : has_uv_map_node material = Except.ok true) :
    material_identity material (some o1) =
      Except.ok (.tup [.str material.name, .tup (o1.uv_sets_names.map PyVal.str)]) ∧
    material_identity material (some o2) =
      Except.ok (.tup [.str material.name, .tup (o2.uv_sets_names.map PyVal.str)]) ∧
    (o1.uv_sets_names ≠ o2.uv_sets_names →
      key (.tup [.str material.name, .tup (o1.uv_sets_names.map PyVal.str)]) sk ≠
        key (.tup [.str material.name, .tup (o2.uv_sets_names.map PyVal.str)]) sk) ∧
    (o1.uv_sets_names = o2.uv_sets_names →
      key (.tup [.str material.name, .tup (o1.uv_sets_names.map PyVal.str)]) sk =
        key (.tup [.str material.name, .tup (o2.uv_sets_names.map PyVal.str)]) sk) ∧
    (∀ ctx h1 ctx1 h2 ctx2, o1.uv_sets_names ≠ o2.uv_sets_names →
      sync ctx material sk (some o1) = .ok (some h1, ctx1) →
      sync ctx1 material sk (some o2) = .ok (some h2, ctx2) →
      matsGet ctx2.materials
          (key (.tup [.str material.name, .tup (o1.uv_sets_names.map PyVal.str)]) sk) =
        some h1 ∧
      matsGet ctx2.materials
          (key (.tup [.str material.name, .tup (o2.uv_sets_names.map PyVal.str)]) sk) =
        some h2) ∧
    (∀ m' : Material, has_uv_map_node m' = Except.ok false →
      ∀ obj, material_identity m' obj = Except.ok (.str m'.name)) ∧
    (∀ m' : Material, material_identity m' none = Except.ok (.str m'.name)) ∧
    (∀ (m' : Material) (o : Obj), o.is_mesh = false →
      material_identity m' (some o) = Except.ok (.str m'.name)) := by
  have hid1 : material_identity material (some o1) =
      Except.ok (.tup [.str material.name, .tup (o1.uv_sets_names.map PyVal.str)]) := by
    simp [material_identity, hm1, huv]
  have hid2 : material_identity material (some o2) =
      Except.ok (.tup [.str material.name, .tup (o2.uv_sets_names.map PyVal.str)]) := by
    simp [material_identity, hm2, huv]
  have hkne : o1.uv_sets_names ≠ o2.uv_sets_names →
      key (.tup [.str material.name, .tup (o1.uv_sets_names.map PyVal.str)]) sk ≠
        key (.tup [.str material.name, .tup (o2.uv_sets_names.map PyVal.str)]) sk := by
    intro huvne
    apply key_left_inj
    intro hc
    apply huvne
    simp only [PyVal.tup.injEq, List.cons.injEq, and_true] at hc
    exact strList_map_inj _ _ hc.2
  refine ⟨hid1, hid2, hkne, ?_, ?_, ?_, ?_, ?_⟩
  · intro he
    rw [he]
  · intro ctx h1 ctx1 h2 ctx2 huvne hs1 hs2
    have reg1 := sync_some_registered ctx material sk (some o1) _ h1 ctx1 hid1 hs1
    have reg2 := sync_some_registered ctx1 material sk (some o2) _ h2 ctx2 hid2 hs2
    have frame := sync_frame_other ctx1 material sk (some o2) _ (some h2) ctx2
      (key (.tup [.str material.name, .tup (o1.uv_sets_names.map PyVal.str)]) sk)
      hid2 hs2 (hkne huvne)
    exact ⟨frame.trans reg1, reg2⟩
  · intro m' huv' obj
    cases obj with
    | none => rfl
    | some o =>
        cases ho : o.is_mesh with
        | false => simp [material_identity, ho]
        | true => simp [material_identity, ho, huv']
  · intro m'
    rfl
  · intro m' o ho
    simp [material_identity, ho]

/-- Witness for C4: the `"Wood"` material (has a UV-Map node) consumed by
mesh objects with UV tuples `("UVMap",)` and `("UVMap", "UVMap2")`. -/
theorem sync_uv_sensitivity_witness :
    (meshA.is_mesh = true ∧ meshB.is_mesh = true ∧
     has_uv_map_node woodMat = Except.ok true) ∧
    (material_identity woodMat (some meshA) =
       Except.ok (.tup [.str woodMat.name, .tup (meshA.uv_sets_names.map PyVal.str)]) ∧
     material_identity woodMat (some meshB) =
       Except.ok (.tup [.str woodMat.name, .tup (meshB.uv_sets_names.map PyVal.str)]) ∧
     (meshA.uv_sets_names ≠ meshB.uv_sets_names →
       key (.tup [.str woodMat.name, .tup (meshA.uv_sets_names.map PyVal.str)]) "Surface" ≠
         key (.tup [.str woodMat.name, .tup (meshB.uv_sets_names.map PyVal.str)]) "Surface") ∧
     (meshA.uv_sets_names = meshB.uv_sets_names →
       key (.tup [.str woodMat.name, .tup (meshA.uv_sets_names.map PyVal.str)]) "Surface" =
         key (.tup [.str woodMat.name, .tup (meshB.uv_sets_names.map PyVal.str)]) "Surface") ∧
     (∀ ctx h1 ctx1 h2 ctx2, meshA.uv_sets_names ≠ meshB.uv_sets_names →
       sync ctx woodMat "Surface" (some meshA) = .ok (some h1, ctx1) →
       sync ctx1 woodMat "Surface" (some meshB) = .ok (some h2, ctx2) →
       matsGet ctx2.materials
           (key (.tup [.str woodMat.name, .tup (meshA.uv_sets_names.map PyVal.str)]) "Surface") =
         some h1 ∧
       matsGet ctx2.materials
           (key (.tup [.str woodMat.name, .tup (meshB.uv_sets_names.map PyVal.str)]) "Surface") =
         some h2) ∧
     (∀ m' : Material, has_uv_map_node m' = Except.ok false →
       ∀ obj, material_identity m' obj = Except.ok (.str m'.name)) ∧
     (∀ m' : Material, material_identity m' none = Except.ok (.str m'.name)) ∧
     (∀ (m' : Material) (o : Obj), o.is_mesh = false →
       material_identity m' (some o) = Except.ok (.str m'.name))) :=
  ⟨⟨rfl, rfl, rfl⟩,
   sync_uv_sensitivity woodMat "Surface" meshA meshB rfl rfl rfl⟩

/-- C2 (code bug): `sync_update` on the `"Wood"` material consumed by mesh
`meshA` removes the Displacement entry stored under the UV-composite key
`(("Wood", ("UVMap",)), "Displacement")` (handle 7), but — because the
source calls the Displacement re-sync without passing `obj` (line 105) —
it recompiles and registers the channel under the bare-name key
`("Wood", "Displacement")` instead: afterwards the removed composite key
is absent from the registry while the bare-name key holds the new handle;
the Surface channel, by contrast, is removed and recompiled under one and
the same composite key. -/
theorem sync_update_displacement_key_mismatch :
    sync_update woodCtx woodMat (some meshA) =
      .ok (true,
        ⟨[(.tup [.str "Wood", .str "Displacement"], 11), (woodIdentA, 10)], 12, 2⟩) ∧
    matsGet [(.tup [.str "Wood", .str "Displacement"], 11), (woodIdentA, 10)]
        (key woodIdentA "Displacement") = none ∧
    matsGet [(.tup [.str "Wood", .str "Displacement"], 11), (woodIdentA, 10)]
        (key (.str "Wood") "Displacement") = some 11 ∧
    matsGet [(.tup [.str "Wood", .str "Displacement"], 11), (woodIdentA, 10)]
        (key woodIdentA "Surface") = some 10 :=
  ⟨rfl, rfl, rfl, rfl⟩
